import Mathlib

/-!
Verification of the go-to-japan-ai pipeline against its specification.

The development shallowly embeds the parts of the repository that the
claims touch:

* `src/api.py` — the `write_root_cause` persistence helper, the
  `run_job` background worker, the `kickoff_post` dispatcher and the
  `results` map consulted by `GET /results/job_id`;
* `src/go_to_japan/crew.py` — the gating predicates `has_restaurants`,
  `has_lodging`, `has_accommodation`, `has_transport`, the conditional
  task wiring (including the Python `or` applied to two predicate
  function objects), and the sequential task list of the crew;
* `src/go_to_japan/tools/itinerary_synthesis_tool.py` and
  `src/go_to_japan/tools/budget_management_tool.py` — the pydantic
  schema constraints relevant to dated source references;
* `src/go_to_japan/tools/other_tools.py` — `BudgetCalcTool._run`.

JSON values are modelled by the inductive `Json`; Python dictionaries
are association lists preserving insertion order; `json.loads` applied
to a string is modelled by the parse result the string would produce
(`Option Json`), and applied to a non-string it raises `TypeError`
exactly as in CPython.
-/

/-- A JSON value, as produced by `json.loads` / consumed by `json.dump`.
Numbers are modelled by rationals, which cover every literal the claims
exercise exactly. -/
inductive Json where
  | null : Json
  | bool (b : Bool) : Json
  | num (q : ℚ) : Json
  | str (s : String) : Json
  | arr (elems : List Json) : Json
  | obj (fields : List (String × Json)) : Json

/-- `d.get(k, default)` on a Python dict modelled as an association list. -/
def dict_get (d : List (String × Json)) (k : String) (default : Json) : Json :=
  match d.find? (fun p => p.1 == k) with
  | some p => p.2
  | none => default

/-- Whether a JSON value is an array (`isinstance(data, list)` in api.py). -/
def Json.isArr : Json → Bool
  | .arr _ => true
  | _ => false

/-!
## `write_root_cause` (src/api.py, lines 17-68)

The file on disk is modelled by `Option FileParse`: `none` when the file
does not exist, and otherwise the outcome of `json.load` on its content:
`FileParse.ok j` when the content parses to the JSON value `j`, and
`FileParse.corrupt` when `json.load` raises `JSONDecodeError` (empty or
malformed file).
-/

/-- Outcome of `json.load` on an existing results file. -/
inductive FileParse where
  | ok (j : Json) : FileParse
  | corrupt : FileParse

/-- The `obj` argument of `write_root_cause`, classified the way the
function inspects it: a Python dict, a string together with the result
`json.loads` would give on it (`none` when parsing raises), or any other
object already reduced to the dict `to_dict()` / `vars()` yields. -/
inductive ObjArg where
  | dict (fields : List (String × Json)) : ObjArg
  | strArg (parsed : Option Json) : ObjArg
  | otherObj (fields : List (String × Json)) : ObjArg

/-- Lines 35-46 of api.py: load existing data, defaulting to `[]` when the
file is absent or corrupt, and wrapping any non-list content into a
one-element list. -/
def load_existing (file : Option FileParse) : List Json :=
  match file with
  | none => []
  | some .corrupt => []
  | some (.ok (.arr xs)) => xs
  | some (.ok j) => [j]

/-- `write_root_cause` (api.py lines 17-68) as a transformer of the file
state. Returns the file state after the call: on an unparseable string
argument the function prints an error and returns before writing, leaving
the file untouched; otherwise it appends the (coerced) record to the
loaded list and writes the list back. -/
def write_root_cause (file : Option FileParse) (obj : ObjArg) : Option FileParse :=
  let data := load_existing file
  match obj with
  | .strArg none => file
  | .strArg (some j) => some (.ok (.arr (data ++ [j])))
  | .dict fields => some (.ok (.arr (data ++ [.obj fields])))
  | .otherObj fields => some (.ok (.arr (data ++ [.obj fields])))

/-!
## Gating predicates (src/go_to_japan/crew.py, lines 43-70)

Each predicate receives a `TaskOutput` and reaches into the ambient
object graph: `output.agent.crew.inputs`. Attribute presence is modelled
with `Option`: on `AgentRef`, `crew = none` means the agent has no
`crew` attribute while `crew = some none` means the attribute exists and
is `None` (Python then treats it as falsy).
-/

/-- The crew object the predicates reach for: it may or may not expose an
`inputs` dict (the run input configuration). -/
structure CrewRef where
  inputs : Option (List (String × Json))

/-- The agent object attached to a task output. -/
structure AgentRef where
  crew : Option (Option CrewRef)

/-- A `TaskOutput` as inspected by the gating predicates: only the
`agent` attribute matters to them. -/
structure TaskOutputObj where
  agent : Option AgentRef

/-- Line 45 of crew.py: `output.agent.crew if hasattr(output, 'agent') and
hasattr(output.agent, 'crew') else None`, followed by the truthiness test
`if crew ...`. Returns the crew when the whole chain succeeds. -/
def ambient_crew (o : TaskOutputObj) : Option CrewRef :=
  match o.agent with
  | some a =>
    match a.crew with
    | some c => c
    | none => none
  | none => none

/-- Python `'s' in services` where `services` came from
`crew.inputs.get('services', [])`: membership of the string among the
elements of a JSON array. A non-array value never contains a string
(the claims only exercise array-valued or absent `services`). -/
def json_has_str (j : Json) (s : String) : Bool :=
  match j with
  | .arr xs => xs.any (fun x => match x with | .str t => t == s | _ => false)
  | _ => false

/-- The `services` value a predicate reads: `crew.inputs.get('services', [])`. -/
def services_of (inputs : List (String × Json)) : Json :=
  dict_get inputs "services" (.arr [])

/-- crew.py lines 43-49. -/
def has_restaurants (o : TaskOutputObj) : Bool :=
  match ambient_crew o with
  | some c =>
    match c.inputs with
    | some inp => json_has_str (services_of inp) "restaurants"
    | none => false
  | none => false

/-- crew.py lines 51-56. -/
def has_lodging (o : TaskOutputObj) : Bool :=
  match ambient_crew o with
  | some c =>
    match c.inputs with
    | some inp => json_has_str (services_of inp) "lodging"
    | none => false
  | none => false

/-- crew.py lines 58-63. -/
def has_accommodation (o : TaskOutputObj) : Bool :=
  match ambient_crew o with
  | some c =>
    match c.inputs with
    | some inp => json_has_str (services_of inp) "accommodation"
    | none => false
  | none => false

/-- crew.py lines 65-70. -/
def has_transport (o : TaskOutputObj) : Bool :=
  match ambient_crew o with
  | some c =>
    match c.inputs with
    | some inp => json_has_str (services_of inp) "transport"
    | none => false
  | none => false

/-- Python `f or g` evaluated on two function objects, as written at
crew.py line 284 (`condition=has_lodging or has_accommodation`): a
function object is truthy, so `or` short-circuits and the whole
expression is the left function itself. The right operand is never
consulted. -/
def py_or_fn (f _g : TaskOutputObj → Bool) : TaskOutputObj → Bool := f

/-- The condition object actually stored on `lodging_specialist_task`. -/
def lodging_condition : TaskOutputObj → Bool :=
  py_or_fn has_lodging has_accommodation

/-- A task output through which the ambient lookup reaches the given run
input configuration: the situation at gate-evaluation time in a normal
crew run, where the chain `output.agent.crew.inputs` is intact. -/
def outputOf (inp : List (String × Json)) : TaskOutputObj :=
  { agent := some { crew := some (some { inputs := some inp }) } }

/-!
## The sequential task list and gate resolution (crew.py, lines 235-387)

The crew executes its tasks in declaration order (`Process.sequential`).
A `ConditionalTask` whose condition evaluates false on the current
output is skipped; every other task runs. `run_statuses` records, for a
run input configuration reachable through the ambient lookup, the
terminal status each task gets.
-/

/-- Terminal status of one task within a run. -/
inductive StageStatus where
  | done : StageStatus
  | skipped : StageStatus
deriving DecidableEq, Repr

/-- One entry of the crew's task list: its name and, for a
`ConditionalTask`, its condition object. -/
structure TaskSpec where
  name : String
  condition : Option (TaskOutputObj → Bool)

/-- The ten tasks of `GoToJapan`, in the declaration order the sequential
process uses. The transport and dining tasks are conditioned on
`has_restaurants` (crew.py lines 271 and 307); the lodging task carries
the `py_or_fn` combination from line 284. -/
def gtj_tasks : List TaskSpec :=
  [ ⟨"profiler_task", none⟩,
    ⟨"live_news_task", none⟩,
    ⟨"weather_analyst_task", none⟩,
    ⟨"transport_planner_task", some has_restaurants⟩,
    ⟨"lodging_specialist_task", some lodging_condition⟩,
    ⟨"daily_activities_sequencing_task", none⟩,
    ⟨"dining_recommender_task", some has_restaurants⟩,
    ⟨"budget_aggregation_and_variants_task", none⟩,
    ⟨"quality_and_consistency_audit_task", none⟩,
    ⟨"itinerary_synthesizer_task", none⟩ ]

/-- Resolve every gate against the run input configuration and record a
terminal status for each task: a conditional task whose condition is
false is `skipped`, every other task is `done`. Total by construction —
gate resolution itself cannot fail a run. -/
def run_statuses (inp : List (String × Json)) : List (String × StageStatus) :=
  gtj_tasks.map (fun t =>
    (t.name,
      match t.condition with
      | some c => if c (outputOf inp) then StageStatus.done else StageStatus.skipped
      | none => StageStatus.done))

/-- The status recorded for a named task. -/
def status_of (inp : List (String × Json)) (name : String) : Option StageStatus :=
  ((run_statuses inp).find? (fun p => p.1 == name)).map (fun p => p.2)

/-!
## Schema constraints on dated sources

From `itinerary_synthesis_tool.py`: `SourceRef`, `TransportItem`,
`ActivityItem`, `DiningItem`. Every required pydantic field is a
non-optional structure field; `Optional[...]` fields are `Option`.
The pydantic validators reject a value violating a `Literal`, `conint`
or `condecimal` bound; each `valid` function below collects exactly the
constraints the corresponding model declares. The `sources` fields of
these three models are declared `Field(default_factory=list)` with no
`min_items`, so validation places no constraint on them.

From `budget_management_tool.py`: `CostItem`, whose `sources` field is
declared `Field(..., min_items=1)`.
-/

/-- A dated source reference: `url` and `date` are required, `title`
optional (itinerary_synthesis_tool.py lines 10-13). -/
structure SourceRef where
  url : String
  date : String
  title : Option String

/-- `TransportItem` (itinerary_synthesis_tool.py lines 57-68). The
source fields `from` and `to` are keywords here, hence the underscore
suffixes. -/
structure TransportItem where
  from_ : String
  to_ : String
  mode : String
  line_or_service : Option String
  duration_minutes : ℤ
  cost_eur : ℚ
  reservation_required : Bool
  notes : Option String
  sources : List SourceRef

/-- The closed set of the `mode` Literal. -/
def transport_modes : List String :=
  ["Metro", "JR Urban", "Bus", "Taxi", "Walk", "Ferry", "Shinkansen", "Flight"]

/-- Pydantic validation of a `TransportItem`: `mode` in its Literal set,
`duration_minutes` a `conint(ge=0)`, `cost_eur` a `condecimal(ge=0)`.
No constraint mentions `sources`. -/
def TransportItem.valid (t : TransportItem) : Bool :=
  transport_modes.contains t.mode
    && decide (0 ≤ t.duration_minutes)
    && decide (0 ≤ t.cost_eur)

/-- `ActivityItem` (itinerary_synthesis_tool.py lines 70-79). -/
structure ActivityItem where
  name : String
  category : String
  start_time : String
  duration_minutes : ℤ
  address : String
  indoor_outdoor : String
  weather_notes : Option String
  cost_eur : ℚ
  sources : List SourceRef

/-- Pydantic validation of an `ActivityItem`: `duration_minutes` a
`conint(ge=15, le=480)`, `indoor_outdoor` in its Literal set, `cost_eur`
a `condecimal(ge=0)`. No constraint mentions `sources`. -/
def ActivityItem.valid (a : ActivityItem) : Bool :=
  decide (15 ≤ a.duration_minutes)
    && decide (a.duration_minutes ≤ 480)
    && (["indoor", "outdoor", "mixed"].contains a.indoor_outdoor)
    && decide (0 ≤ a.cost_eur)

/-- `DiningItem` (itinerary_synthesis_tool.py lines 86-92). -/
structure DiningItem where
  restaurant : String
  cuisine : String
  price_eur : ℚ
  reservation_needed : Bool
  address : String
  sources : List SourceRef

/-- Pydantic validation of a `DiningItem`: `price_eur` a
`condecimal(ge=0)`. No constraint mentions `sources`. -/
def DiningItem.valid (d : DiningItem) : Bool :=
  decide (0 ≤ d.price_eur)

/-- `CostItem` (budget_management_tool.py lines 25-32). -/
structure CostItem where
  label : String
  category : String
  qty : ℚ
  unit_cost_eur : ℚ
  total_cost_eur : ℚ
  notes : Option String
  sources : List SourceRef

/-- Pydantic validation of a `CostItem`: `category` in its Literal set,
`qty` a `condecimal(gt=0)`, both costs `condecimal(ge=0)`, and the
`sources` list declared with `min_items=1`. -/
def CostItem.valid (c : CostItem) : Bool :=
  (["transport", "lodging", "dining", "activities"].contains c.category)
    && decide (0 < c.qty)
    && decide (0 ≤ c.unit_cost_eur)
    && decide (0 ≤ c.total_cost_eur)
    && decide (1 ≤ c.sources.length)

/-!
## `BudgetCalcTool._run` (src/go_to_japan/tools/other_tools.py, 482-505)

`_run` sums the breakdown values, and when a budget is given adds
`difference_from_budget = total - budget` plus two illustrative
scenarios. The returned dict carries no `status` key; the record below
mirrors the keys `_run` actually sets, with `Option` for the two that
depend on the budget being present.
-/

/-- One illustrative scenario produced by `BudgetCalcTool._run`. -/
structure BudgetScenario where
  name : String
  modifier : ℚ
  estimated_total : ℚ
  description : String

/-- The dict returned by `BudgetCalcTool._run`. -/
structure BudgetCalcResult where
  breakdown : List (String × ℚ)
  total : ℚ
  difference_from_budget : Option ℚ
  scenarios : Option (List BudgetScenario)

/-- `BudgetCalcTool._run` (other_tools.py lines 482-505). Numbers are
Python floats in the source; the rationals used here agree with float
arithmetic on every value the claims exercise. -/
def budget_calc_run (breakdown : List (String × ℚ)) (budget_yen : Option ℚ) :
    BudgetCalcResult :=
  let total := (breakdown.map (fun p => p.2)).foldl (· + ·) 0
  match budget_yen with
  | none =>
    { breakdown := breakdown, total := total,
      difference_from_budget := none, scenarios := none }
  | some b =>
    { breakdown := breakdown, total := total,
      difference_from_budget := some (total - b),
      scenarios := some
        [ { name := "Economy", modifier := -(1/10), estimated_total := total * (9/10),
            description := "Reduce costs by 10% across all categories" },
          { name := "Premium", modifier := 1/5, estimated_total := total * (12/10),
            description := "Increase budget by 20% for upgrades" } ] }

/-- Modelled from the spec: no code under src/ computes the `status`
field of the budget artifact — the `BudgetDelta` schema
(budget_management_tool.py lines 61-66) only restricts it to the
Literal set and documents its meaning as the position of
`difference_from_budget = total - budget` versus zero, negative meaning
under the budget. The external reasoning collaborator fills the field
in; this derivation follows the documented semantics. -/
def budget_status (difference : ℚ) : String :=
  if difference < 0 then "under"
  else if 0 < difference then "over"
  else "on_target"

/-!
## Background dispatch (src/api.py, lines 131-175)

`results` is the module-level dict keyed by job id. `kickoff_post`
parses its `inputs` query string, rejects non-dict payloads with HTTP
400, otherwise marks the fresh job id as running and schedules
`run_job(job_id, data)` — note it hands over the already-parsed dict
`data`, not the string. `run_job` then calls `json.loads(inputs)` on
whatever it received; CPython raises `TypeError` when that argument is
not a `str`/`bytes`. The pipeline entry point `run` in
`go_to_japan/main.py` is declared with zero parameters, so the call
`run(data)` raises `TypeError` before the function body executes.
The `except` clause of `run_job` raises `HTTPException` instead of
touching `results`.
-/

/-- Exceptions a modelled Python step can raise. -/
inductive PyErr where
  | typeErr (msg : String) : PyErr
  | valueErr (msg : String) : PyErr
  | jsonDecodeErr : PyErr
deriving Repr

/-- The argument a caller hands to `run_job` for its `inputs` parameter:
either a Python string (represented by the JSON value it parses to,
`none` when `json.loads` would raise `JSONDecodeError`) or an
already-parsed dict, which is what `kickoff_post` actually passes. -/
inductive PyArg where
  | pyStr (parsed : Option Json) : PyArg
  | pyDict (fields : List (String × Json)) : PyArg

/-- `json.loads` applied to a `run_job` argument: succeeds only on a
parseable string; a dict argument raises `TypeError` (CPython:
"the JSON object must be str, bytes or bytearray, not dict"). -/
def json_loads : PyArg → Except PyErr Json
  | .pyStr (some j) => .ok j
  | .pyStr none => .error .jsonDecodeErr
  | .pyDict _ => .error (.typeErr "the JSON object must be str, not dict")

/-- The call `run(data)` against `def run():` in go_to_japan/main.py
(lines 18-48): the function signature accepts no positional argument,
so the call raises `TypeError` before any pipeline work happens. -/
def run_call (_data : Json) : Except PyErr String :=
  .error (.typeErr "run() takes 0 positional arguments but 1 was given")

/-- One entry in the module-level `results` dict. -/
inductive JobStatus where
  | running : JobStatus
  | done (data : String) : JobStatus
deriving DecidableEq, Repr

/-- The `results` dict: insertion-ordered mapping from job id. -/
def ResultsMap := List (String × JobStatus)

/-- `results[k] = v`: overwrite an existing key in place, else append. -/
def dset : ResultsMap → String → JobStatus → ResultsMap
  | [], k, v => [(k, v)]
  | (k2, v2) :: rest, k, v =>
    if k2 == k then (k, v) :: rest else (k2, v2) :: dset rest k v

/-- `results.get(k)`. -/
def dget (r : ResultsMap) (k : String) : Option JobStatus :=
  (r.find? (fun p => p.1 == k)).map (fun p => p.2)

/-- The `HTTPException` raised at api.py line 148 / 168. -/
structure HTTPExc where
  status_code : ℕ
  detail : String
deriving Repr

/-- `run_job` (api.py lines 138-148): returns the `results` dict after
the call together with the exception it raises, if any. Every failure
path lands in the `except` clause, which raises `HTTPException(400)`
without writing to `results`; only a fully successful pipeline run
stores `done`. -/
def run_job (results : ResultsMap) (job_id : String) (inputs : PyArg) :
    ResultsMap × Option HTTPExc :=
  match json_loads inputs with
  | .error _ => (results, some ⟨400, "Bad inputs"⟩)
  | .ok data =>
    match data with
    | .obj _ =>
      match run_call data with
      | .error _ => (results, some ⟨400, "Bad inputs"⟩)
      | .ok raw => (dset results job_id (.done raw), none)
    | _ => (results, some ⟨400, "Bad inputs"⟩)

/-- Response of `POST /kickoff_post`. -/
inductive KickoffResp where
  | accepted (job_id : String) : KickoffResp
  | httpError (e : HTTPExc) : KickoffResp
deriving Repr

/-- `kickoff_post` (api.py lines 152-168). Its `inputs` query string is
represented by its parse result; `fresh_id` stands for the generated
uuid. On acceptance the job is marked running and the background task
`run_job(job_id, data)` is scheduled with the parsed dict — returned
here as the third component so the caller of the model can run it. -/
def kickoff_post (results : ResultsMap) (fresh_id : String)
    (inputs : Option Json) :
    KickoffResp × ResultsMap × Option (String × PyArg) :=
  match inputs with
  | some (.obj fields) =>
    (.accepted fresh_id, dset results fresh_id .running,
      some (fresh_id, .pyDict fields))
  | some _ => (.httpError ⟨400, "Bad inputs"⟩, results, none)
  | none => (.httpError ⟨400, "Bad inputs"⟩, results, none)

/-- `GET /results/job_id` (api.py lines 171-175): 404 when unknown,
otherwise the stored entry. -/
def get_results (results : ResultsMap) (job_id : String) :
    Except HTTPExc JobStatus :=
  match dget results job_id with
  | some st => .ok st
  | none => .error ⟨404, "Job not found"⟩

/-!
## Auxiliary definitions used by the theorem statements
-/

/-- The run input configuration a predicate ends up reading, when the
whole ambient chain `output.agent.crew.inputs` resolves; `none` when any
link is missing. -/
def ambient_inputs (o : TaskOutputObj) : Option (List (String × Json)) :=
  match ambient_crew o with
  | some c => c.inputs
  | none => none

/-- The category breakdown of the budget-arithmetic scenario of the
specification, in its written order. -/
def spec_breakdown : List (String × ℚ) :=
  [("transport", 500), ("lodging", 800), ("dining", 300), ("activities", 200)]

/-- A well-formed transport segment whose `sources` list is empty. -/
def sample_transport_item : TransportItem :=
  { from_ := "Tokyo Station", to_ := "Shinjuku", mode := "Metro",
    line_or_service := none, duration_minutes := 10, cost_eur := 2,
    reservation_required := false, notes := none, sources := [] }

/-- A well-formed activity whose `sources` list is empty. -/
def sample_activity_item : ActivityItem :=
  { name := "Senso-ji visit", category := "temple", start_time := "09:00",
    duration_minutes := 90, address := "2 Chome-3-1 Asakusa",
    indoor_outdoor := "outdoor", weather_notes := none, cost_eur := 0,
    sources := [] }

/-- A well-formed dining entry whose `sources` list is empty. -/
def sample_dining_item : DiningItem :=
  { restaurant := "Ichiran Shibuya", cuisine := "ramen", price_eur := 12,
    reservation_needed := false, address := "1 Chome-22-7 Jinnan",
    sources := [] }

/-- A cost item that satisfies every `CostItem` constraint except the
`min_items=1` bound on `sources`. -/
def sample_cost_item : CostItem :=
  { label := "Tokaido Shinkansen Hikari", category := "transport", qty := 1,
    unit_cost_eur := 100, total_cost_eur := 100, notes := none,
    sources := [] }

/-- A run input configuration requesting only restaurants. -/
def restaurants_only_inputs : List (String × Json) :=
  [("services", .arr [.str "restaurants"])]

/-- A run input configuration requesting no gated service at all. -/
def no_services_inputs : List (String × Json) :=
  [("planningType", .str "explore"), ("services", .arr [])]

/-- `results[k] = v` then `results.get(k)` gives back `v`: lookup after
insertion into the results dict. -/
theorem dget_dset_self (r : ResultsMap) (k : String) (v : JobStatus) :
    dget (dset r k v) k = some v := by
  induction r with
  | nil => simp [dset, dget]
  | cons p rest ih =>
    by_cases h : p.1 == k
    · simp [dset, dget, h]
    · simpa [dset, dget, h] using ih

/-!
## Claim theorems
-/

/-- Claim C5: appending a dict record to a persisted log file whose
content is a JSON array of N records yields exactly N+1 records, with
the first N unchanged and in their original order and the new record
last. -/
theorem append_preserves_prior_records (xs : List Json)
    (fields : List (String × Json)) :
    write_root_cause (some (.ok (.arr xs))) (.dict fields)
        = some (.ok (.arr (xs ++ [.obj fields])))
      ∧ (xs ++ [Json.obj fields]).length = xs.length + 1
      ∧ (xs ++ [Json.obj fields]).take xs.length = xs
      ∧ (xs ++ [Json.obj fields]).getLast? = some (.obj fields) := by
  refine ⟨rfl, by simp, ?_, by simp⟩
  simp [List.take_left xs [Json.obj fields]]

/-- Claim C6: a malformed pre-existing log file is reset, so appending a
record yields a one-element array holding only the new record; valid
non-array pre-existing content is wrapped into a one-element array
before the new record is appended. Neither path raises — the model is a
total function. -/
theorem malformed_log_reset_nonarray_wrapped :
    (∀ fields : List (String × Json),
      write_root_cause (some .corrupt) (.dict fields)
        = some (.ok (.arr [.obj fields])))
    ∧ (∀ (j : Json) (fields : List (String × Json)), j.isArr = false →
      write_root_cause (some (.ok j)) (.dict fields)
        = some (.ok (.arr [j, .obj fields]))) := by
  refine ⟨fun fields => rfl, fun j fields h => ?_⟩
  cases j <;> simp_all [write_root_cause, load_existing, Json.isArr]

/-- Witness for C6 at concrete inputs: a corrupt file plus one record
gives exactly that record, and a file holding the non-array value `5`
gets wrapped. -/
theorem malformed_log_reset_nonarray_wrapped_witness :
    write_root_cause (some .corrupt) (.dict [("run", .num 1)])
        = some (.ok (.arr [.obj [("run", .num 1)]]))
      ∧ write_root_cause (some (.ok (.num 5))) (.dict [("run", .num 1)])
        = some (.ok (.arr [.num 5, .obj [("run", .num 1)]])) :=
  ⟨malformed_log_reset_nonarray_wrapped.1 [("run", .num 1)],
    malformed_log_reset_nonarray_wrapped.2 (.num 5) [("run", .num 1)] rfl⟩

/-- Claim C10: when the record argument is a string that is not
parseable JSON, `write_root_cause` returns without raising and without
touching the file — the file state after the call is the file state
before it. -/
theorem unparseable_record_leaves_file_unchanged (file : Option FileParse) :
    write_root_cause file (.strArg none) = file := rfl

/-- Claim C1: on every run input configuration whose services list
contains neither "lodging" nor "accommodation", the condition object
stored on the lodging task (the Python `or` of the two predicate
function objects) evaluates to false, and on that configuration it
coincides with the boolean disjunction of the two predicates evaluated
results. -/
theorem lodging_gate_false_when_neither_service (inp : List (String × Json))
    (h1 : json_has_str (services_of inp) "lodging" = false)
    (h2 : json_has_str (services_of inp) "accommodation" = false) :
    lodging_condition (outputOf inp) = false
      ∧ lodging_condition (outputOf inp)
          = (has_lodging (outputOf inp) || has_accommodation (outputOf inp)) := by
  have hl : has_lodging (outputOf inp) = false := h1
  have ha : has_accommodation (outputOf inp) = false := h2
  have hc : lodging_condition (outputOf inp) = has_lodging (outputOf inp) := rfl
  rw [hc, hl, ha]
  simp

/-- Witness for C1: the configuration requesting only restaurants. -/
theorem lodging_gate_false_when_neither_service_witness :
    lodging_condition (outputOf restaurants_only_inputs) = false
      ∧ lodging_condition (outputOf restaurants_only_inputs)
          = (has_lodging (outputOf restaurants_only_inputs)
              || has_accommodation (outputOf restaurants_only_inputs)) :=
  lodging_gate_false_when_neither_service restaurants_only_inputs rfl rfl

/-- Claim C9: whenever the ambient lookup through
`output.agent.crew.inputs` fails at any link — no agent attribute, no
crew attribute, crew is `None`, or no inputs attribute — all four gating
predicates return false instead of raising. -/
theorem predicates_false_on_failed_lookup (o : TaskOutputObj)
    (h : ambient_inputs o = none) :
    has_restaurants o = false ∧ has_lodging o = false
      ∧ has_accommodation o = false ∧ has_transport o = false := by
  cases hc : ambient_crew o with
  | none =>
    simp [has_restaurants, has_lodging, has_accommodation, has_transport, hc]
  | some c =>
    have hi : c.inputs = none := by simpa [ambient_inputs, hc] using h
    simp [has_restaurants, has_lodging, has_accommodation, has_transport,
      hc, hi]

/-- Witness for C9: a task output carrying no agent attribute at all. -/
theorem predicates_false_on_failed_lookup_witness :
    has_restaurants ⟨none⟩ = false ∧ has_lodging ⟨none⟩ = false
      ∧ has_accommodation ⟨none⟩ = false ∧ has_transport ⟨none⟩ = false :=
  predicates_false_on_failed_lookup ⟨none⟩ rfl

/-- Claim C2: when the services list excludes "restaurants", "lodging"
and "accommodation", the transport, lodging and dining tasks are all
recorded SKIPPED, and gate resolution still assigns every one of the ten
tasks a terminal status (no error from the absences). -/
theorem three_gated_stages_skipped (inp : List (String × Json))
    (h1 : json_has_str (services_of inp) "restaurants" = false)
    (h2 : json_has_str (services_of inp) "lodging" = false)
    (h3 : json_has_str (services_of inp) "accommodation" = false) :
    status_of inp "transport_planner_task" = some .skipped
      ∧ status_of inp "lodging_specialist_task" = some .skipped
      ∧ status_of inp "dining_recommender_task" = some .skipped
      ∧ (run_statuses inp).length = gtj_tasks.length := by
  have hr : has_restaurants (outputOf inp) = false := h1
  have hl : lodging_condition (outputOf inp) = false := h2
  have _hx : json_has_str (services_of inp) "accommodation" = false := h3
  refine ⟨?_, ?_, ?_, by simp [run_statuses]⟩
    <;> simp [status_of, run_statuses, gtj_tasks, hr, hl]

/-- Witness for C2: a configuration whose services list is empty. -/
theorem three_gated_stages_skipped_witness :
    status_of no_services_inputs "transport_planner_task" = some .skipped
      ∧ status_of no_services_inputs "lodging_specialist_task" = some .skipped
      ∧ status_of no_services_inputs "dining_recommender_task" = some .skipped
      ∧ (run_statuses no_services_inputs).length = gtj_tasks.length :=
  three_gated_stages_skipped no_services_inputs rfl rfl rfl

/-- Counterexample to claim C3 as stated: a transport segment with an
empty `sources` list passes schema validation — the `sources` fields of
the fact-bearing leaves in the synthesis schema are declared with a
default empty list and no minimum length, so nothing rejects it. -/
theorem empty_sources_transport_item_accepted :
    TransportItem.valid sample_transport_item = true
      ∧ sample_transport_item.sources = [] := by
  exact ⟨by decide, rfl⟩

/-- Claim C3 as amended: schema validation of the transport, activity
and dining leaves is insensitive to the `sources` list (emptying it
never changes the verdict), while the budget `CostItem` schema does
enforce at least one dated source reference (`min_items=1`). -/
theorem leaf_sources_unchecked_cost_item_checked :
    (∀ t : TransportItem,
      TransportItem.valid { t with sources := [] } = TransportItem.valid t)
    ∧ (∀ a : ActivityItem,
      ActivityItem.valid { a with sources := [] } = ActivityItem.valid a)
    ∧ (∀ d : DiningItem,
      DiningItem.valid { d with sources := [] } = DiningItem.valid d)
    ∧ (∀ c : CostItem, c.sources = [] → CostItem.valid c = false) := by
  refine ⟨fun t => rfl, fun a => rfl, fun d => rfl, fun c h => ?_⟩
  simp [CostItem.valid, h]

/-- Witness for the amended C3 at concrete items, including a cost item
rejected solely for its empty `sources` list. -/
theorem leaf_sources_unchecked_cost_item_checked_witness :
    TransportItem.valid { sample_transport_item with sources := [] }
        = TransportItem.valid sample_transport_item
      ∧ ActivityItem.valid { sample_activity_item with sources := [] }
        = ActivityItem.valid sample_activity_item
      ∧ DiningItem.valid { sample_dining_item with sources := [] }
        = DiningItem.valid sample_dining_item
      ∧ CostItem.valid sample_cost_item = false :=
  ⟨leaf_sources_unchecked_cost_item_checked.1 sample_transport_item,
    leaf_sources_unchecked_cost_item_checked.2.1 sample_activity_item,
    leaf_sources_unchecked_cost_item_checked.2.2.1 sample_dining_item,
    leaf_sources_unchecked_cost_item_checked.2.2.2 sample_cost_item rfl⟩

/-- Claim C4: on the breakdown transport 500, lodging 800, dining 300,
activities 200 with a user budget of 2000, the aggregation returns total
1800 and difference_from_budget -200, and the documented status
semantics places that difference at "under". -/
theorem budget_arithmetic_example :
    (budget_calc_run spec_breakdown (some 2000)).total = 1800
      ∧ (budget_calc_run spec_breakdown (some 2000)).difference_from_budget
          = some (-200)
      ∧ budget_status (-200) = "under" := by
  refine ⟨?_, ?_, ?_⟩ <;>
    norm_num [budget_calc_run, spec_breakdown, budget_status]

/-- Claim C7, evaluated at the failing input: an accepted job whose
background execution fails. `kickoff_post` accepts the payload and marks
the job running; the background `run_job` call then raises
`HTTPException` without writing to `results`, so the next poll still
returns the running status instead of the failure. -/
theorem background_error_never_recorded :
    kickoff_post [] "job-1" (some (.obj []))
        = (.accepted "job-1", [("job-1", .running)],
            some ("job-1", .pyDict []))
      ∧ run_job [("job-1", .running)] "job-1" (.pyDict [])
        = ([("job-1", .running)], some ⟨400, "Bad inputs"⟩)
      ∧ get_results [("job-1", .running)] "job-1" = .ok .running :=
  ⟨rfl, rfl, rfl⟩

/-- Claim C8: every payload `kickoff_post` accepts is handed to
`run_job` as an already-parsed dict; `json.loads` on a dict raises, so
`run_job` raises before producing output and leaves the results map
unchanged — the job id stays mapped to running, and the `run(data)`
call could never have succeeded anyway since `run` takes no argument. -/
theorem accepted_jobs_stay_running_forever (r : ResultsMap) (fresh : String)
    (fields : List (String × Json)) :
    kickoff_post r fresh (some (.obj fields))
        = (.accepted fresh, dset r fresh .running,
            some (fresh, .pyDict fields))
      ∧ run_job (dset r fresh .running) fresh (.pyDict fields)
        = (dset r fresh .running, some ⟨400, "Bad inputs"⟩)
      ∧ dget (dset r fresh .running) fresh = some .running
      ∧ (∀ data : Json, (run_call data).isOk = false) :=
  ⟨rfl, rfl, dget_dset_self r fresh .running, fun _ => rfl⟩
